import Mathlib

/-!
HMC5883L magnetometer driver (SALMO_pico_fw/HMC5883L/HMC5883L.c).

A shallow embedding of the register-level driver.  The C file keeps three
file-scope variables (`slaveAddr`, `buffer[6]`, `mode`) and talks to the chip
through two transport primitives.  Here the three variables and the transport
are the fields of an explicit state that every driver function takes and
returns.  Bytes (`uint8_t`) are natural numbers, truncated with `% 256` at
every store; `int16_t` results are integers in `[-32768, 32767]`.  The shift
amount that C computes in `int` as `BIT - LENGTH + 1` is written
`BIT + 1 - LENGTH`, so that the subtraction of natural numbers does not cut it
off (for the bias and mode fields `BIT - LENGTH` is `-1`).
-/

namespace HMC5883L

/-! ## Register map and bit-field constants (header `HMC5883L.h`) -/

/-- Modelled from the spec: register index of configuration register A; the header
`HMC5883L.h` is not among the sources, the value is the chip datasheet's. -/
def HMC5883L_RA_CONFIG_A : Nat := 0x00
/-- Modelled from the spec: register index of configuration register B (header
`HMC5883L.h` missing, datasheet value). -/
def HMC5883L_RA_CONFIG_B : Nat := 0x01
/-- Modelled from the spec: register index of the mode register (header
`HMC5883L.h` missing, datasheet value). -/
def HMC5883L_RA_MODE : Nat := 0x02
/-- Modelled from the spec: register index of the first of the six data registers
`X_H, X_L, Z_H, Z_L, Y_H, Y_L` (header `HMC5883L.h` missing, datasheet value). -/
def HMC5883L_RA_DATAX_H : Nat := 0x03
/-- Modelled from the spec: register index of the status register (header
`HMC5883L.h` missing, datasheet value). -/
def HMC5883L_RA_STATUS : Nat := 0x09
/-- Modelled from the spec: register index of identification register A, the first
of three consecutive identification registers (header `HMC5883L.h` missing). -/
def HMC5883L_RA_ID_A : Nat := 0x0A
/-- Modelled from the spec: register index of identification register B (header
`HMC5883L.h` missing). -/
def HMC5883L_RA_ID_B : Nat := 0x0B
/-- Modelled from the spec: register index of identification register C (header
`HMC5883L.h` missing). -/
def HMC5883L_RA_ID_C : Nat := 0x0C

/-- Modelled from the spec: most significant bit of the averaging field of
CONFIG_A (bit-layout table: mostBit 6, length 2); header `HMC5883L.h` missing. -/
def HMC5883L_CRA_AVERAGE_BIT : Nat := 6
/-- Modelled from the spec: length of the averaging field (bit-layout table). -/
def HMC5883L_CRA_AVERAGE_LENGTH : Nat := 2
/-- Modelled from the spec: most significant bit of the data-rate field of
CONFIG_A (bit-layout table: mostBit 4, length 3). -/
def HMC5883L_CRA_RATE_BIT : Nat := 4
/-- Modelled from the spec: length of the data-rate field (bit-layout table). -/
def HMC5883L_CRA_RATE_LENGTH : Nat := 3
/-- Modelled from the spec: most significant bit of the bias field of CONFIG_A
(bit-layout table: mostBit 1, length 2). -/
def HMC5883L_CRA_BIAS_BIT : Nat := 1
/-- Modelled from the spec: length of the bias field (bit-layout table). -/
def HMC5883L_CRA_BIAS_LENGTH : Nat := 2
/-- Modelled from the spec: most significant bit of the gain field of CONFIG_B
(bit-layout table: mostBit 7, length 3). -/
def HMC5883L_CRB_GAIN_BIT : Nat := 7
/-- Modelled from the spec: length of the gain field (bit-layout table). -/
def HMC5883L_CRB_GAIN_LENGTH : Nat := 3
/-- Modelled from the spec: most significant bit of the mode field of the MODE
register (bit-layout table: mostBit 1, length 2). -/
def HMC5883L_MODEREG_BIT : Nat := 1
/-- Modelled from the spec: length of the mode field (bit-layout table). -/
def HMC5883L_MODEREG_LENGTH : Nat := 2

/-- Modelled from the spec: averaging code for 8 samples (values 0..3 mean
1/2/4/8 samples); header `HMC5883L.h` missing. -/
def HMC5883L_AVERAGING_8 : Nat := 0x03
/-- Modelled from the spec: data-rate code for 15 Hz (`getDataRate()==4 (15 Hz)`). -/
def HMC5883L_RATE_15 : Nat := 0x04
/-- Modelled from the spec: bias code for normal bias (0/1/2 mean
normal/positive/negative). -/
def HMC5883L_BIAS_NORMAL : Nat := 0x00
/-- Modelled from the spec: gain code for 1090 LSB/Gauss (`getGain()==1`). -/
def HMC5883L_GAIN_1090 : Nat := 0x01
/-- Modelled from the spec: mode code of continuous measurement (0/1/2 mean
continuous/single/idle). -/
def HMC5883L_MODE_CONTINUOUS : Nat := 0x00
/-- Modelled from the spec: mode code of single measurement. -/
def HMC5883L_MODE_SINGLE : Nat := 0x01
/-- Modelled from the spec: mode code of idle. -/
def HMC5883L_MODE_IDLE : Nat := 0x02
/-- Modelled from the spec: position of the lock bit in the status register
(header `HMC5883L.h` missing, datasheet value). -/
def HMC5883L_STATUS_LOCK_BIT : Nat := 1
/-- Modelled from the spec: position of the ready bit in the status register
(header `HMC5883L.h` missing, datasheet value). -/
def HMC5883L_STATUS_READY_BIT : Nat := 0

/-! ## Transport and driver state -/

/-- One transaction the driver issues on the transport: a read of `len` bytes
starting at register `reg`, or a write of the byte `val` to register `reg`. -/
inductive Txn where
  | read (addr reg len : Nat)
  | write (addr reg val : Nat)
deriving DecidableEq, Repr

/-- Modelled from the spec: the I2C transport collaborator behind
`HMC5883L_I2C_BufferRead` and `HMC5883L_I2C_ByteWrite` (`HMC5883L_I2C.h` is not
among the sources).  It is a register file that stores what is written to it,
a flag telling whether transactions complete, and the log of the transactions
issued so far. -/
structure Bus where
  regs : Nat → Nat
  up : Bool
  log : List Txn

/-- The file-scope variables of `HMC5883L.c` (`slaveAddr`, `buffer`, `mode`)
together with the transport they act on. -/
structure State where
  slaveAddr : Nat
  buffer : Fin 6 → Nat
  mode : Nat
  bus : Bus

/-- Modelled from the spec: `bufferRead(address, registerIndex, length)`; on success
the `n` bytes of registers `reg, reg+1, ...` land in `buffer[0..n-1]`, on failure
no byte is delivered and the buffer keeps its contents.  The call is logged
either way. -/
def HMC5883L_I2C_BufferRead (s : State) (reg n : Nat) : State :=
  let bus1 : Bus := { s.bus with log := s.bus.log ++ [Txn.read s.slaveAddr reg n] }
  if s.bus.up then
    { s with
      buffer := fun i => if i.val < n then s.bus.regs (reg + i.val) % 256 else s.buffer i
      bus := bus1 }
  else
    { s with bus := bus1 }

/-- Modelled from the spec: `byteWrite(address, registerIndex, value)`; on success the
register file stores the byte, on failure nothing is stored.  The call is
logged either way. -/
def HMC5883L_I2C_ByteWrite (s : State) (val reg : Nat) : State :=
  let entry := Txn.write s.slaveAddr reg (val % 256)
  if s.bus.up then
    { s with bus := { s.bus with
        regs := Function.update s.bus.regs reg (val % 256)
        log := s.bus.log ++ [entry] } }
  else
    { s with bus := { s.bus with log := s.bus.log ++ [entry] } }

/-- The assignment `buffer[0] = v` to the `uint8_t` scratch buffer. -/
def setBuffer0 (s : State) (v : Nat) : State :=
  { s with buffer := Function.update s.buffer 0 (v % 256) }

/-- The value of `~(mask)` as it acts on a `uint8_t` operand: the low eight bits
of the complement of the promoted mask. -/
def compl8 (mask : Nat) : Nat := 0xFF ^^^ (mask % 256)

/-- Conversion of the `int` value of a heading expression to `int16_t`. -/
def toInt16 (n : Nat) : Int :=
  if n % 65536 < 32768 then (n % 65536 : Nat) else ((n % 65536 : Nat) : Int) - 65536

/-! ## Identification -/

/-- Embedding of `HMC5883L_getIDA`. -/
def HMC5883L_getIDA (s : State) : Nat × State :=
  let s1 := HMC5883L_I2C_BufferRead s HMC5883L_RA_ID_A 1
  (s1.buffer 0, s1)

/-- Embedding of `HMC5883L_getIDB`. -/
def HMC5883L_getIDB (s : State) : Nat × State :=
  let s1 := HMC5883L_I2C_BufferRead s HMC5883L_RA_ID_B 1
  (s1.buffer 0, s1)

/-- Embedding of `HMC5883L_getIDC`. -/
def HMC5883L_getIDC (s : State) : Nat × State :=
  let s1 := HMC5883L_I2C_BufferRead s HMC5883L_RA_ID_C 1
  (s1.buffer 0, s1)

/-- Embedding of `isHMC`: three-byte read from ID_A and comparison with `'H'`, `'4'`, `'3'`. -/
def isHMC (s : State) : Bool × State :=
  let s1 := HMC5883L_I2C_BufferRead s HMC5883L_RA_ID_A 3
  (s1.buffer 0 == 'H'.toNat && s1.buffer 1 == '4'.toNat && s1.buffer 2 == '3'.toNat, s1)

/-! ## Configuration register A -/

/-- Embedding of `HMC5883L_getSampleAveraging`. -/
def HMC5883L_getSampleAveraging (s : State) : Nat × State :=
  let s1 := HMC5883L_I2C_BufferRead s HMC5883L_RA_CONFIG_A 1
  let mask := (((1 <<< HMC5883L_CRA_AVERAGE_LENGTH) - 1)
    <<< (HMC5883L_CRA_AVERAGE_BIT + 1 - HMC5883L_CRA_AVERAGE_LENGTH)) % 256
  let s2 := setBuffer0 s1 (s1.buffer 0 &&& mask)
  let s3 := setBuffer0 s2
    (s2.buffer 0 >>> (HMC5883L_CRA_AVERAGE_BIT + 1 - HMC5883L_CRA_AVERAGE_LENGTH))
  (s3.buffer 0, s3)

/-- Embedding of `HMC5883L_setSampleAveraging`. -/
def HMC5883L_setSampleAveraging (s : State) (averaging : Nat) : State :=
  let s1 := HMC5883L_I2C_BufferRead s HMC5883L_RA_CONFIG_A 1
  let mask := (((1 <<< HMC5883L_CRA_AVERAGE_LENGTH) - 1)
    <<< (HMC5883L_CRA_AVERAGE_BIT + 1 - HMC5883L_CRA_AVERAGE_LENGTH)) % 256
  let averaging1 :=
    (averaging <<< (HMC5883L_CRA_AVERAGE_BIT + 1 - HMC5883L_CRA_AVERAGE_LENGTH)) % 256
  let averaging2 := (averaging1 &&& mask) % 256
  let s2 := setBuffer0 s1 (s1.buffer 0 &&& compl8 mask)
  let s3 := setBuffer0 s2 (s2.buffer 0 ||| averaging2)
  HMC5883L_I2C_ByteWrite s3 (s3.buffer 0) HMC5883L_RA_CONFIG_A

/-- Embedding of `HMC5883L_getDataRate`. -/
def HMC5883L_getDataRate (s : State) : Nat × State :=
  let s1 := HMC5883L_I2C_BufferRead s HMC5883L_RA_CONFIG_A 1
  let mask := (((1 <<< HMC5883L_CRA_RATE_LENGTH) - 1)
    <<< (HMC5883L_CRA_RATE_BIT + 1 - HMC5883L_CRA_RATE_LENGTH)) % 256
  let s2 := setBuffer0 s1 (s1.buffer 0 &&& mask)
  let s3 := setBuffer0 s2
    (s2.buffer 0 >>> (HMC5883L_CRA_RATE_BIT + 1 - HMC5883L_CRA_RATE_LENGTH))
  (s3.buffer 0, s3)

/-- Embedding of `HMC5883L_setDataRate`. -/
def HMC5883L_setDataRate (s : State) (rate : Nat) : State :=
  let s1 := HMC5883L_I2C_BufferRead s HMC5883L_RA_CONFIG_A 1
  let mask := (((1 <<< HMC5883L_CRA_RATE_LENGTH) - 1)
    <<< (HMC5883L_CRA_RATE_BIT + 1 - HMC5883L_CRA_RATE_LENGTH)) % 256
  let rate1 := (rate <<< (HMC5883L_CRA_RATE_BIT + 1 - HMC5883L_CRA_RATE_LENGTH)) % 256
  let rate2 := (rate1 &&& mask) % 256
  let s2 := setBuffer0 s1 (s1.buffer 0 &&& compl8 mask)
  let s3 := setBuffer0 s2 (s2.buffer 0 ||| rate2)
  HMC5883L_I2C_ByteWrite s3 (s3.buffer 0) HMC5883L_RA_CONFIG_A

/-- Embedding of `HMC5883L_getMeasurementBias`. -/
def HMC5883L_getMeasurementBias (s : State) : Nat × State :=
  let s1 := HMC5883L_I2C_BufferRead s HMC5883L_RA_CONFIG_A 1
  let mask := (((1 <<< HMC5883L_CRA_BIAS_LENGTH) - 1)
    <<< (HMC5883L_CRA_BIAS_BIT + 1 - HMC5883L_CRA_BIAS_LENGTH)) % 256
  let s2 := setBuffer0 s1 (s1.buffer 0 &&& mask)
  let s3 := setBuffer0 s2
    (s2.buffer 0 >>> (HMC5883L_CRA_BIAS_BIT + 1 - HMC5883L_CRA_BIAS_LENGTH))
  (s3.buffer 0, s3)

/-- Embedding of `HMC5883L_setMeasurementBias`. -/
def HMC5883L_setMeasurementBias (s : State) (bias : Nat) : State :=
  let s1 := HMC5883L_I2C_BufferRead s HMC5883L_RA_CONFIG_A 1
  let mask := (((1 <<< HMC5883L_CRA_BIAS_LENGTH) - 1)
    <<< (HMC5883L_CRA_BIAS_BIT + 1 - HMC5883L_CRA_BIAS_LENGTH)) % 256
  let bias1 := (bias <<< (HMC5883L_CRA_BIAS_BIT + 1 - HMC5883L_CRA_BIAS_LENGTH)) % 256
  let bias2 := (bias1 &&& mask) % 256
  let s2 := setBuffer0 s1 (s1.buffer 0 &&& compl8 mask)
  let s3 := setBuffer0 s2 (s2.buffer 0 ||| bias2)
  HMC5883L_I2C_ByteWrite s3 (s3.buffer 0) HMC5883L_RA_CONFIG_A

/-! ## Configuration register B -/

/-- Embedding of `HMC5883L_getGain`. -/
def HMC5883L_getGain (s : State) : Nat × State :=
  let s1 := HMC5883L_I2C_BufferRead s HMC5883L_RA_CONFIG_B 1
  let mask := (((1 <<< HMC5883L_CRB_GAIN_LENGTH) - 1)
    <<< (HMC5883L_CRB_GAIN_BIT + 1 - HMC5883L_CRB_GAIN_LENGTH)) % 256
  let s2 := setBuffer0 s1 (s1.buffer 0 &&& mask)
  let s3 := setBuffer0 s2
    (s2.buffer 0 >>> (HMC5883L_CRB_GAIN_BIT + 1 - HMC5883L_CRB_GAIN_LENGTH))
  (s3.buffer 0, s3)

/-- Embedding of `HMC5883L_setGain`: the whole register is overwritten, nothing is read. -/
def HMC5883L_setGain (s : State) (gain : Nat) : State :=
  let s1 := setBuffer0 s (gain <<< (HMC5883L_CRB_GAIN_BIT + 1 - HMC5883L_CRB_GAIN_LENGTH))
  HMC5883L_I2C_ByteWrite s1 (s1.buffer 0) HMC5883L_RA_CONFIG_B

/-! ## Mode register -/

/-- Embedding of `HMC5883L_getMode`.  The read targets `HMC5883L_RA_CONFIG_A`, as in the
source. -/
def HMC5883L_getMode (s : State) : Nat × State :=
  let s1 := HMC5883L_I2C_BufferRead s HMC5883L_RA_CONFIG_A 1
  let mask := (((1 <<< HMC5883L_MODEREG_LENGTH) - 1)
    <<< (HMC5883L_MODEREG_BIT + 1 - HMC5883L_MODEREG_LENGTH)) % 256
  let s2 := setBuffer0 s1 (s1.buffer 0 &&& mask)
  let s3 := setBuffer0 s2
    (s2.buffer 0 >>> (HMC5883L_MODEREG_BIT + 1 - HMC5883L_MODEREG_LENGTH))
  (s3.buffer 0, s3)

/-- Embedding of `HMC5883L_setMode`: the whole register is overwritten and the cached mode
is updated. -/
def HMC5883L_setMode (s : State) (newMode : Nat) : State :=
  let s1 := setBuffer0 s (newMode <<< (HMC5883L_MODEREG_BIT + 1 - HMC5883L_MODEREG_LENGTH))
  let s2 := HMC5883L_I2C_ByteWrite s1 (s1.buffer 0) HMC5883L_RA_MODE
  { s2 with mode := newMode % 256 }

/-! ## Initialisation -/

/-- Embedding of `HMC5883L_initialize`. -/
def HMC5883L_initialize (s : State) : State :=
  let s1 := setBuffer0 s
    ((HMC5883L_AVERAGING_8 <<< (HMC5883L_CRA_AVERAGE_BIT + 1 - HMC5883L_CRA_AVERAGE_LENGTH))
      ||| (HMC5883L_RATE_15 <<< (HMC5883L_CRA_RATE_BIT + 1 - HMC5883L_CRA_RATE_LENGTH))
      ||| (HMC5883L_BIAS_NORMAL <<< (HMC5883L_CRA_BIAS_BIT + 1 - HMC5883L_CRA_BIAS_LENGTH)))
  let s2 := HMC5883L_I2C_ByteWrite s1 (s1.buffer 0) HMC5883L_RA_CONFIG_A
  let s3 := HMC5883L_setGain s2 HMC5883L_GAIN_1090
  HMC5883L_setMode s3 HMC5883L_MODE_SINGLE

/-! ## Data registers -/

/-- The three axes of one measurement. -/
structure Heading where
  x : Int
  y : Int
  z : Int
deriving DecidableEq, Repr

/-- Embedding of `HMC5883L_getHeading`. -/
def HMC5883L_getHeading (s : State) : Heading × State :=
  let s1 := HMC5883L_I2C_BufferRead s HMC5883L_RA_DATAX_H 6
  let tmp := (HMC5883L_MODE_SINGLE <<< (HMC5883L_MODEREG_BIT + 1 - HMC5883L_MODEREG_LENGTH)) % 256
  let s2 := if s1.mode = HMC5883L_MODE_SINGLE then
      HMC5883L_I2C_ByteWrite s1 tmp HMC5883L_RA_MODE
    else s1
  ({ x := toInt16 ((s2.buffer 0 <<< 8) ||| s2.buffer 1)
     y := toInt16 ((s2.buffer 4 <<< 8) ||| s2.buffer 5)
     z := toInt16 ((s2.buffer 2 <<< 8) ||| s2.buffer 3) }, s2)

/-- Embedding of `HMC5883L_getHeadingX`. -/
def HMC5883L_getHeadingX (s : State) : Int × State :=
  let s1 := HMC5883L_I2C_BufferRead s HMC5883L_RA_DATAX_H 6
  let tmp := (HMC5883L_MODE_SINGLE <<< (HMC5883L_MODEREG_BIT + 1 - HMC5883L_MODEREG_LENGTH)) % 256
  let s2 := if s1.mode = HMC5883L_MODE_SINGLE then
      HMC5883L_I2C_ByteWrite s1 tmp HMC5883L_RA_MODE
    else s1
  (toInt16 ((s2.buffer 0 <<< 8) ||| s2.buffer 1), s2)

/-- Embedding of `HMC5883L_getHeadingY`. -/
def HMC5883L_getHeadingY (s : State) : Int × State :=
  let s1 := HMC5883L_I2C_BufferRead s HMC5883L_RA_DATAX_H 6
  let tmp := (HMC5883L_MODE_SINGLE <<< (HMC5883L_MODEREG_BIT + 1 - HMC5883L_MODEREG_LENGTH)) % 256
  let s2 := if s1.mode = HMC5883L_MODE_SINGLE then
      HMC5883L_I2C_ByteWrite s1 tmp HMC5883L_RA_MODE
    else s1
  (toInt16 ((s2.buffer 4 <<< 8) ||| s2.buffer 5), s2)

/-- Embedding of `HMC5883L_getHeadingZ`. -/
def HMC5883L_getHeadingZ (s : State) : Int × State :=
  let s1 := HMC5883L_I2C_BufferRead s HMC5883L_RA_DATAX_H 6
  let tmp := (HMC5883L_MODE_SINGLE <<< (HMC5883L_MODEREG_BIT + 1 - HMC5883L_MODEREG_LENGTH)) % 256
  let s2 := if s1.mode = HMC5883L_MODE_SINGLE then
      HMC5883L_I2C_ByteWrite s1 tmp HMC5883L_RA_MODE
    else s1
  (toInt16 ((s2.buffer 2 <<< 8) ||| s2.buffer 3), s2)

/-! ## Status register -/

/-- Embedding of `HMC5883L_getLockStatus`. -/
def HMC5883L_getLockStatus (s : State) : Bool × State :=
  let s1 := HMC5883L_I2C_BufferRead s HMC5883L_RA_STATUS 1
  let s2 := setBuffer0 s1 ((s1.buffer 0 >>> HMC5883L_STATUS_LOCK_BIT) &&& 0x01)
  (s2.buffer 0 != 0, s2)

/-- Embedding of `HMC5883L_getReadyStatus`. -/
def HMC5883L_getReadyStatus (s : State) : Bool × State :=
  let s1 := HMC5883L_I2C_BufferRead s HMC5883L_RA_STATUS 1
  let s2 := setBuffer0 s1 ((s1.buffer 0 >>> HMC5883L_STATUS_READY_BIT) &&& 0x01)
  (s2.buffer 0 != 0, s2)

/-! ## Auxiliary definitions for the statements and proofs -/

/-- The mask of the field of `len` bits whose least significant bit is `lsb`, as
the accessors compute it into a `uint8_t`. -/
def fieldMask (lsb len : Nat) : Nat := (((1 <<< len) - 1) <<< lsb) % 256

/-- The byte a field getter leaves in `buffer[0]` when the register byte is `r`. -/
def fieldGet (lsb len r : Nat) : Nat := (((r &&& fieldMask lsb len) % 256) >>> lsb) % 256

/-- The byte a read-modify-write setter sends when the register byte is `r` and
its argument is `v`. -/
def fieldPut (lsb len r v : Nat) : Nat :=
  ((((r &&& compl8 (fieldMask lsb len)) % 256) |||
    ((((v <<< lsb) % 256) &&& fieldMask lsb len) % 256)) % 256) % 256

/-- The signed 16-bit value of the big-endian byte pair `(hi, lo)`, stated
arithmetically: the unsigned value `256 * hi + lo`, less `65536` when it is
`32768` or more. -/
def signed16 (hi lo : Nat) : Int :=
  if 256 * hi + lo < 32768 then ((256 * hi + lo : Nat) : Int)
  else ((256 * hi + lo : Nat) : Int) - 65536

/-- The state a read-modify-write of the field `(lsb, len)` of CONFIG_A leaves
behind on a responsive transport. -/
def rmwResult (s : State) (lsb len v : Nat) : State :=
  { slaveAddr := s.slaveAddr
    buffer := Function.update s.buffer 0
      (fieldPut lsb len (s.bus.regs HMC5883L_RA_CONFIG_A % 256) v)
    mode := s.mode
    bus := {
      regs := Function.update s.bus.regs HMC5883L_RA_CONFIG_A
        (fieldPut lsb len (s.bus.regs HMC5883L_RA_CONFIG_A % 256) v)
      up := true
      log := s.bus.log ++ [Txn.read s.slaveAddr HMC5883L_RA_CONFIG_A 1,
        Txn.write s.slaveAddr HMC5883L_RA_CONFIG_A
          (fieldPut lsb len (s.bus.regs HMC5883L_RA_CONFIG_A % 256) v)] } }

/-- The frame condition of a CONFIG_A setter `set` whose field is bits `lo..hi`:
called with `v` in state `s`, it issues exactly one read of CONFIG_A and then one
write of a byte `w` to CONFIG_A; `w` has the bits of the register's previous byte
everywhere outside `lo..hi`; the register file changes at CONFIG_A only, where
it now holds `w`; the cached mode is unchanged. -/
def PreservesOutside (set : State → Nat → State) (lo hi : Nat) (s : State) (v : Nat) : Prop :=
  ∃ w,
    (set s v).bus.log = s.bus.log ++
      [Txn.read s.slaveAddr HMC5883L_RA_CONFIG_A 1,
       Txn.write s.slaveAddr HMC5883L_RA_CONFIG_A w] ∧
    (∀ i, ¬ (lo ≤ i ∧ i ≤ hi) →
      w.testBit i = (s.bus.regs HMC5883L_RA_CONFIG_A % 256).testBit i) ∧
    (set s v).bus.regs = Function.update s.bus.regs HMC5883L_RA_CONFIG_A w ∧
    (set s v).mode = s.mode

/-! ## Concrete states used to evaluate the driver -/

/-- The register file whose registers `0, 1, 2, ...` hold the bytes of `l` and
whose other registers hold `0`. -/
def regsOfList (l : List Nat) : Nat → Nat := fun a => l.getD a 0

/-- A chip with all configuration bits set, the data block `01 02 03 04 05 06`,
a clear status register and the identification bytes `H`, `4`, `3`. -/
def sampleRegs : Nat → Nat :=
  regsOfList [0xFF, 0xFF, 0xFF, 0x01, 0x02, 0x03, 0x04, 0x05, 0x06, 0x00, 0x48, 0x34, 0x33]

/-- A driver at bus address `0x1E` with a zeroed scratch buffer and cached mode
`m`, talking to a responsive chip whose registers are `regs`. -/
def stateOf (regs : Nat → Nat) (m : Nat) : State :=
  { slaveAddr := 0x1E, buffer := fun _ => 0, mode := m,
    bus := { regs := regs, up := true, log := [] } }

/-- The state `s` with the transport no longer completing transactions. -/
def busDown (s : State) : State := { s with bus := { s.bus with up := false } }


/-! ## Axes of a heading -/

/-- The three axes of a measurement. -/
inductive Axis where
  | X
  | Y
  | Z
deriving DecidableEq, Repr

/-- Offset of the byte pair of an axis inside the six-byte data block, whose
wire order is X, Z, Y. -/
def Axis.offset : Axis → Nat
  | Axis.X => 0
  | Axis.Z => 2
  | Axis.Y => 4

/-- The component of a heading on an axis. -/
def Heading.component (h : Heading) : Axis → Int
  | Axis.X => h.x
  | Axis.Y => h.y
  | Axis.Z => h.z

/-- The single-axis reader of an axis. -/
def readAxis : Axis → State → Int × State
  | Axis.X => HMC5883L_getHeadingX
  | Axis.Y => HMC5883L_getHeadingY
  | Axis.Z => HMC5883L_getHeadingZ

/-- A chip like the sample chip whose Z byte pair holds `F0 00`: the data block is
`01 02 F0 00 05 06`. -/
def overflowRegs : Nat → Nat :=
  regsOfList [0xFF, 0xFF, 0xFF, 0x01, 0x02, 0xF0, 0x00, 0x05, 0x06, 0x02, 0x48, 0x34, 0x33]

/-- The sample chip after a successful `isHMC`, which leaves `H`, `4`, `3` in the
scratch buffer, with the transport then failing. -/
def staleState : State := busDown (isHMC (stateOf sampleRegs 1)).2

/-! ## Bit-level facts about one register field -/

theorem testBit_mod_256 (x i : Nat) :
    (x % 256).testBit i = (decide (i < 8) && x.testBit i) := by
  have h256 : (256 : Nat) = 2 ^ 8 := rfl
  rw [h256, Nat.testBit_mod_two_pow]

theorem testBit_fieldMask (lsb len i : Nat) :
    (fieldMask lsb len).testBit i =
      (decide (i < 8) && decide (lsb ≤ i) && decide (i - lsb < len)) := by
  have h256 : (256 : Nat) = 2 ^ 8 := rfl
  unfold fieldMask
  rw [h256, Nat.one_shiftLeft, Nat.testBit_mod_two_pow, Nat.testBit_shiftLeft,
    Nat.testBit_two_pow_sub_one]
  simp [Bool.and_assoc]

theorem testBit_compl8 (m i : Nat) :
    (compl8 m).testBit i = (decide (i < 8) && !m.testBit i) := by
  have h256 : (256 : Nat) = 2 ^ 8 := rfl
  have h255 : (0xFF : Nat) = 2 ^ 8 - 1 := rfl
  unfold compl8
  rw [h255, h256, Nat.testBit_xor, Nat.testBit_two_pow_sub_one, Nat.testBit_mod_two_pow]
  cases decide (i < 8) <;> simp

theorem testBit_fieldPut (lsb len r v i : Nat) :
    (fieldPut lsb len r v).testBit i =
      (decide (i < 8) &&
        (if lsb ≤ i ∧ i - lsb < len then v.testBit (i - lsb) else r.testBit i)) := by
  unfold fieldPut
  simp only [testBit_mod_256, Nat.testBit_or, Nat.testBit_and, testBit_compl8,
    testBit_fieldMask, Nat.testBit_shiftLeft]
  by_cases h8 : i < 8 <;> by_cases h1 : lsb ≤ i <;> by_cases h2 : i - lsb < len <;>
    simp [h8, h1, h2]

theorem testBit_fieldGet (lsb len r i : Nat) :
    (fieldGet lsb len r).testBit i =
      (decide (i < 8) && decide (lsb + i < 8) && decide (i < len) && r.testBit (lsb + i)) := by
  unfold fieldGet
  simp only [testBit_mod_256, Nat.testBit_shiftRight, Nat.testBit_and, testBit_fieldMask]
  by_cases h8 : i < 8 <;> by_cases h1 : lsb + i < 8 <;> by_cases h2 : i < len <;>
    simp [h8, h1, h2]

/-- Reading a field back from the byte a setter sends gives the argument
truncated to the field width. -/
theorem fieldGet_fieldPut (lsb len r v : Nat) (h : lsb + len ≤ 8) :
    fieldGet lsb len (fieldPut lsb len r v) = v % 2 ^ len := by
  apply Nat.eq_of_testBit_eq
  intro i
  rw [testBit_fieldGet, testBit_fieldPut, Nat.testBit_mod_two_pow]
  by_cases h2 : i < len
  · have h8 : i < 8 := by omega
    have h1 : lsb + i < 8 := by omega
    simp [h8, h1, h2]
  · simp [h2]

/-- A byte sent by a setter agrees with the register byte it was built from on
every bit outside the field. -/
theorem testBit_fieldPut_outside (lsb len r v i : Nat) (h : ¬ (lsb ≤ i ∧ i < lsb + len)) :
    (fieldPut lsb len r v).testBit i = (r % 256).testBit i := by
  rw [testBit_fieldPut, testBit_mod_256]
  have h2 : ¬ (lsb ≤ i ∧ i - lsb < len) := by omega
  simp [h2]

theorem fieldPut_mod (lsb len r v : Nat) : fieldPut lsb len r v % 256 = fieldPut lsb len r v := by
  unfold fieldPut
  exact Nat.mod_mod _ _

/-! ## What each accessor does on a responsive transport -/

theorem update_read_buffer (s : State) (reg x : Nat) :
    Function.update
      (fun i : Fin 6 => if i.val = 0 then s.bus.regs (reg + i.val) % 256 else s.buffer i) 0 x
      = Function.update s.buffer 0 x := by
  funext i
  by_cases hi : i = 0
  · subst hi; simp
  · have : ¬ (i.val = 0) := fun h0 => hi (Fin.ext h0)
    simp [Function.update, hi, this]

theorem getSampleAveraging_val (s : State) (h : s.bus.up = true) :
    (HMC5883L_getSampleAveraging s).1 = fieldGet 5 2 (s.bus.regs HMC5883L_RA_CONFIG_A % 256) := by
  simp only [HMC5883L_getSampleAveraging, HMC5883L_I2C_BufferRead, setBuffer0, h]
  rfl

theorem getDataRate_val (s : State) (h : s.bus.up = true) :
    (HMC5883L_getDataRate s).1 = fieldGet 2 3 (s.bus.regs HMC5883L_RA_CONFIG_A % 256) := by
  simp only [HMC5883L_getDataRate, HMC5883L_I2C_BufferRead, setBuffer0, h]
  rfl

theorem getMeasurementBias_val (s : State) (h : s.bus.up = true) :
    (HMC5883L_getMeasurementBias s).1 = fieldGet 0 2 (s.bus.regs HMC5883L_RA_CONFIG_A % 256) := by
  simp only [HMC5883L_getMeasurementBias, HMC5883L_I2C_BufferRead, setBuffer0, h]
  rfl

theorem getGain_val (s : State) (h : s.bus.up = true) :
    (HMC5883L_getGain s).1 = fieldGet 5 3 (s.bus.regs HMC5883L_RA_CONFIG_B % 256) := by
  simp only [HMC5883L_getGain, HMC5883L_I2C_BufferRead, setBuffer0, h]
  rfl

theorem getMode_val (s : State) (h : s.bus.up = true) :
    (HMC5883L_getMode s).1 = fieldGet 0 2 (s.bus.regs HMC5883L_RA_CONFIG_A % 256) := by
  simp only [HMC5883L_getMode, HMC5883L_I2C_BufferRead, setBuffer0, h]
  rfl

theorem setSampleAveraging_up (s : State) (v : Nat) (h : s.bus.up = true) :
    HMC5883L_setSampleAveraging s v = rmwResult s 5 2 v := by
  simp only [HMC5883L_setSampleAveraging, HMC5883L_I2C_BufferRead, HMC5883L_I2C_ByteWrite,
    setBuffer0, h, if_true, rmwResult]
  simp [fieldPut, fieldMask, HMC5883L_CRA_AVERAGE_BIT, HMC5883L_CRA_AVERAGE_LENGTH,
    update_read_buffer]

theorem setDataRate_up (s : State) (v : Nat) (h : s.bus.up = true) :
    HMC5883L_setDataRate s v = rmwResult s 2 3 v := by
  simp only [HMC5883L_setDataRate, HMC5883L_I2C_BufferRead, HMC5883L_I2C_ByteWrite,
    setBuffer0, h, if_true, rmwResult]
  simp [fieldPut, fieldMask, HMC5883L_CRA_RATE_BIT, HMC5883L_CRA_RATE_LENGTH,
    update_read_buffer]

theorem setMeasurementBias_up (s : State) (v : Nat) (h : s.bus.up = true) :
    HMC5883L_setMeasurementBias s v = rmwResult s 0 2 v := by
  simp only [HMC5883L_setMeasurementBias, HMC5883L_I2C_BufferRead, HMC5883L_I2C_ByteWrite,
    setBuffer0, h, if_true, rmwResult]
  simp [fieldPut, fieldMask, HMC5883L_CRA_BIAS_BIT, HMC5883L_CRA_BIAS_LENGTH,
    update_read_buffer]

theorem rmwResult_read_back (s : State) (lsb len v : Nat) :
    (rmwResult s lsb len v).bus.regs HMC5883L_RA_CONFIG_A % 256
      = fieldPut lsb len (s.bus.regs HMC5883L_RA_CONFIG_A % 256) v := by
  simp [rmwResult, fieldPut_mod]


/-! ## Configuration register A: set, then get -/

/-- C1: on a register file that stores what was written, whatever configuration
register A held before, setting the averaging field to `a` in `0..3`, the data
rate to `r` in `0..6` or the bias to `b` in `0..2` and then calling the matching
getter returns exactly the value that was set. -/
theorem configA_get_after_set (s : State) (a r b : Nat) (hup : s.bus.up = true)
    (ha : a ≤ 3) (hr : r ≤ 6) (hb : b ≤ 2) :
    (HMC5883L_getSampleAveraging (HMC5883L_setSampleAveraging s a)).1 = a ∧
    (HMC5883L_getDataRate (HMC5883L_setDataRate s r)).1 = r ∧
    (HMC5883L_getMeasurementBias (HMC5883L_setMeasurementBias s b)).1 = b := by
  refine ⟨?_, ?_, ?_⟩
  · rw [setSampleAveraging_up s a hup, getSampleAveraging_val _ rfl, rmwResult_read_back,
      fieldGet_fieldPut 5 2 _ _ (by decide)]
    exact Nat.mod_eq_of_lt (by omega)
  · rw [setDataRate_up s r hup, getDataRate_val _ rfl, rmwResult_read_back,
      fieldGet_fieldPut 2 3 _ _ (by decide)]
    exact Nat.mod_eq_of_lt (by omega)
  · rw [setMeasurementBias_up s b hup, getMeasurementBias_val _ rfl, rmwResult_read_back,
      fieldGet_fieldPut 0 2 _ _ (by decide)]
    exact Nat.mod_eq_of_lt (by omega)

/-- Witness of C1 on the sample chip, whose configuration register A holds
`0xFF`: averaging 2, rate 6 and bias 1 are read back. -/
theorem configA_get_after_set_witness :
    (stateOf sampleRegs 0).bus.up = true ∧
    (HMC5883L_getSampleAveraging (HMC5883L_setSampleAveraging (stateOf sampleRegs 0) 2)).1 = 2 ∧
    (HMC5883L_getDataRate (HMC5883L_setDataRate (stateOf sampleRegs 0) 6)).1 = 6 ∧
    (HMC5883L_getMeasurementBias (HMC5883L_setMeasurementBias (stateOf sampleRegs 0) 1)).1 = 1 :=
  ⟨rfl, configA_get_after_set (stateOf sampleRegs 0) 2 6 1 rfl (by decide) (by decide)
    (by decide)⟩

/-- C2: on a responsive transport, for every content of configuration register A
and every argument `v`, each of the three CONFIG_A setters issues one read of
CONFIG_A followed by one write of a byte `w` to CONFIG_A and nothing else; `w`
agrees with the register's previous byte on every bit outside the setter's own
field (averaging: bits 6..5, rate: bits 4..2, bias: bits 1..0); afterwards the
register file differs from the previous one at CONFIG_A only, where it holds
`w`, and the cached mode is what it was. -/
theorem configA_set_frame (s : State) (v : Nat) (hup : s.bus.up = true) :
    PreservesOutside HMC5883L_setSampleAveraging 5 6 s v ∧
    PreservesOutside HMC5883L_setDataRate 2 4 s v ∧
    PreservesOutside HMC5883L_setMeasurementBias 0 1 s v := by
  refine ⟨?_, ?_, ?_⟩
  · unfold PreservesOutside
    rw [setSampleAveraging_up s v hup]
    exact ⟨_, rfl, fun i hi =>
      (testBit_fieldPut_outside 5 2 _ v i (by omega)).trans (by rw [Nat.mod_mod]), rfl, rfl⟩
  · unfold PreservesOutside
    rw [setDataRate_up s v hup]
    exact ⟨_, rfl, fun i hi =>
      (testBit_fieldPut_outside 2 3 _ v i (by omega)).trans (by rw [Nat.mod_mod]), rfl, rfl⟩
  · unfold PreservesOutside
    rw [setMeasurementBias_up s v hup]
    exact ⟨_, rfl, fun i hi =>
      (testBit_fieldPut_outside 0 2 _ v i (by omega)).trans (by rw [Nat.mod_mod]), rfl, rfl⟩

/-- Witness of C2 on the sample chip (CONFIG_A holds `0xFF`) with the
out-of-range argument `0xA5`. -/
theorem configA_set_frame_witness :
    (stateOf sampleRegs 1).bus.up = true ∧
    PreservesOutside HMC5883L_setSampleAveraging 5 6 (stateOf sampleRegs 1) 0xA5 ∧
    PreservesOutside HMC5883L_setDataRate 2 4 (stateOf sampleRegs 1) 0xA5 ∧
    PreservesOutside HMC5883L_setMeasurementBias 0 1 (stateOf sampleRegs 1) 0xA5 :=
  ⟨rfl, configA_set_frame (stateOf sampleRegs 1) 0xA5 rfl⟩


/-! ## Gain, mode and initialisation -/

theorem setGain_up (s : State) (v : Nat) (h : s.bus.up = true) :
    HMC5883L_setGain s v =
      { slaveAddr := s.slaveAddr
        buffer := Function.update s.buffer 0 ((v <<< 5) % 256)
        mode := s.mode
        bus := { regs := Function.update s.bus.regs HMC5883L_RA_CONFIG_B ((v <<< 5) % 256)
                 up := true
                 log := s.bus.log ++
                   [Txn.write s.slaveAddr HMC5883L_RA_CONFIG_B ((v <<< 5) % 256)] } } := by
  simp [HMC5883L_setGain, HMC5883L_I2C_ByteWrite, setBuffer0, h, HMC5883L_CRB_GAIN_BIT,
    HMC5883L_CRB_GAIN_LENGTH]

theorem setMode_up (s : State) (v : Nat) (h : s.bus.up = true) :
    HMC5883L_setMode s v =
      { slaveAddr := s.slaveAddr
        buffer := Function.update s.buffer 0 (v % 256)
        mode := v % 256
        bus := { regs := Function.update s.bus.regs HMC5883L_RA_MODE (v % 256)
                 up := true
                 log := s.bus.log ++ [Txn.write s.slaveAddr HMC5883L_RA_MODE (v % 256)] } } := by
  simp [HMC5883L_setMode, HMC5883L_I2C_ByteWrite, setBuffer0, h, HMC5883L_MODEREG_BIT,
    HMC5883L_MODEREG_LENGTH]

theorem initialize_up (s : State) (h : s.bus.up = true) :
    HMC5883L_initialize s =
      { slaveAddr := s.slaveAddr
        buffer := Function.update s.buffer 0 0x01
        mode := 0x01
        bus := { regs := Function.update (Function.update (Function.update s.bus.regs
                   HMC5883L_RA_CONFIG_A 0x70) HMC5883L_RA_CONFIG_B 0x20) HMC5883L_RA_MODE 0x01
                 up := true
                 log := s.bus.log ++
                   [Txn.write s.slaveAddr HMC5883L_RA_CONFIG_A 0x70,
                    Txn.write s.slaveAddr HMC5883L_RA_CONFIG_B 0x20,
                    Txn.write s.slaveAddr HMC5883L_RA_MODE 0x01] } } := by
  have h1 : (HMC5883L_I2C_ByteWrite (setBuffer0 s 0x70) 0x70 HMC5883L_RA_CONFIG_A).bus.up
      = true := by
    simp [HMC5883L_I2C_ByteWrite, setBuffer0, h]
  have h2 : (HMC5883L_setGain (HMC5883L_I2C_ByteWrite (setBuffer0 s 0x70) 0x70
      HMC5883L_RA_CONFIG_A) 1).bus.up = true := by
    rw [setGain_up _ _ h1]
  have e : HMC5883L_initialize s = HMC5883L_setMode (HMC5883L_setGain
      (HMC5883L_I2C_ByteWrite (setBuffer0 s 0x70) 0x70 HMC5883L_RA_CONFIG_A) 1) 1 := by
    simp [ HMC5883L_initialize, setBuffer0, HMC5883L_AVERAGING_8, HMC5883L_RATE_15,
      HMC5883L_BIAS_NORMAL, HMC5883L_GAIN_1090, HMC5883L_MODE_SINGLE, HMC5883L_CRA_AVERAGE_BIT,
      HMC5883L_CRA_AVERAGE_LENGTH, HMC5883L_CRA_RATE_BIT, HMC5883L_CRA_RATE_LENGTH,
      HMC5883L_CRA_BIAS_BIT, HMC5883L_CRA_BIAS_LENGTH]
  rw [e, setMode_up _ _ h2, setGain_up _ _ h1]
  simp [HMC5883L_I2C_ByteWrite, setBuffer0, h]

theorem fieldGet_gain_byte (v : Nat) : fieldGet 5 3 ((v <<< 5) % 256 % 256) = v % 2 ^ 3 := by
  apply Nat.eq_of_testBit_eq
  intro i
  rw [testBit_fieldGet, Nat.testBit_mod_two_pow]
  simp only [testBit_mod_256, Nat.testBit_shiftLeft]
  by_cases h2 : i < 3
  · have h8 : i < 8 := by omega
    have h1 : 5 + i < 8 := by omega
    simp [h8, h1, h2]
  · simp [h2]

/-- C4: on a register file that stores what was written, whatever configuration
register B held before, `HMC5883L_setGain v` with `v` in `0..7` followed by
`HMC5883L_getGain` returns `v`. -/
theorem getGain_after_setGain (s : State) (v : Nat) (hup : s.bus.up = true) (hv : v ≤ 7) :
    (HMC5883L_getGain (HMC5883L_setGain s v)).1 = v := by
  rw [setGain_up s v hup, getGain_val _ rfl]
  simp only [Function.update_same]
  rw [fieldGet_gain_byte]
  exact Nat.mod_eq_of_lt (by omega)

/-- Witness of C4 on the sample chip, whose configuration register B holds
`0xFF`: gain 5 is read back. -/
theorem getGain_after_setGain_witness :
    (stateOf sampleRegs 0).bus.up = true ∧ (5 : Nat) ≤ 7 ∧
    (HMC5883L_getGain (HMC5883L_setGain (stateOf sampleRegs 0) 5)).1 = 5 :=
  ⟨rfl, by decide, getGain_after_setGain (stateOf sampleRegs 0) 5 rfl (by decide)⟩

/-- On a responsive transport `HMC5883L_getMode` after `HMC5883L_setMode` returns
bits 1..0 of configuration register A, whatever mode was set. -/
theorem getMode_setMode_up (s : State) (v : Nat) (hup : s.bus.up = true) :
    (HMC5883L_getMode (HMC5883L_setMode s v)).1
      = fieldGet 0 2 (s.bus.regs HMC5883L_RA_CONFIG_A % 256) := by
  rw [setMode_up s v hup, getMode_val _ rfl]
  simp [HMC5883L_RA_MODE, HMC5883L_RA_CONFIG_A]

/-- C3 (the code departs from the claim): on the sample chip, initialised by
`HMC5883L_initialize`, `HMC5883L_setMode` with idle (2) stores 2 in the MODE
register and in the cached mode, yet `HMC5883L_getMode` returns 0, the bias
bits of configuration register A that it reads instead of the MODE register. -/
theorem getMode_after_setMode_idle :
    (HMC5883L_setMode ( HMC5883L_initialize (stateOf sampleRegs 0)) HMC5883L_MODE_IDLE).bus.regs
        HMC5883L_RA_MODE = 2 ∧
    (HMC5883L_setMode ( HMC5883L_initialize (stateOf sampleRegs 0)) HMC5883L_MODE_IDLE).mode = 2 ∧
    (HMC5883L_getMode
      (HMC5883L_setMode ( HMC5883L_initialize (stateOf sampleRegs 0)) HMC5883L_MODE_IDLE)).1 = 0 ∧
    (HMC5883L_getMode
      (HMC5883L_setMode ( HMC5883L_initialize (stateOf sampleRegs 0)) HMC5883L_MODE_IDLE)).2.bus.log
      = [Txn.write 0x1E HMC5883L_RA_CONFIG_A 0x70, Txn.write 0x1E HMC5883L_RA_CONFIG_B 0x20,
         Txn.write 0x1E HMC5883L_RA_MODE 0x01, Txn.write 0x1E HMC5883L_RA_MODE 0x02,
         Txn.read 0x1E HMC5883L_RA_CONFIG_A 1] := by
  refine ⟨by decide, by decide, by decide, by decide⟩

/-- C5: on a register file that stores what was written, whatever it held
before, after `HMC5883L_initialize` the getters return averaging 3, data rate
4, bias 0 and gain 1. -/
theorem getters_after_init (s : State) (hup : s.bus.up = true) :
    (HMC5883L_getSampleAveraging ( HMC5883L_initialize s)).1 = 3 ∧
    (HMC5883L_getDataRate ( HMC5883L_initialize s)).1 = 4 ∧
    (HMC5883L_getMeasurementBias ( HMC5883L_initialize s)).1 = 0 ∧
    (HMC5883L_getGain ( HMC5883L_initialize s)).1 = 1 := by
  rw [initialize_up s hup, getSampleAveraging_val _ rfl, getDataRate_val _ rfl,
    getMeasurementBias_val _ rfl, getGain_val _ rfl]
  simp only [HMC5883L_RA_CONFIG_A, HMC5883L_RA_CONFIG_B, HMC5883L_RA_MODE]
  refine ⟨?_, ?_, ?_, ?_⟩ <;> simp [Function.update] <;> decide

/-- Witness of C5 on the sample chip, whose configuration registers hold `0xFF`. -/
theorem getters_after_init_witness :
    (stateOf sampleRegs 0).bus.up = true ∧
    (HMC5883L_getSampleAveraging ( HMC5883L_initialize (stateOf sampleRegs 0))).1 = 3 ∧
    (HMC5883L_getDataRate ( HMC5883L_initialize (stateOf sampleRegs 0))).1 = 4 ∧
    (HMC5883L_getMeasurementBias ( HMC5883L_initialize (stateOf sampleRegs 0))).1 = 0 ∧
    (HMC5883L_getGain ( HMC5883L_initialize (stateOf sampleRegs 0))).1 = 1 :=
  ⟨rfl, getters_after_init (stateOf sampleRegs 0) rfl⟩

/-- On a responsive transport `HMC5883L_getMode` after `HMC5883L_initialize`
returns 0 for every previous state. -/
theorem getMode_initialize_up (s : State) (hup : s.bus.up = true) :
    (HMC5883L_getMode ( HMC5883L_initialize s)).1 = 0 := by
  rw [initialize_up s hup, getMode_val _ rfl]
  simp only [HMC5883L_RA_CONFIG_A, HMC5883L_RA_CONFIG_B, HMC5883L_RA_MODE]
  simp [Function.update]
  decide

/-- C6 (the code departs from the claim): on the sample chip,
`HMC5883L_initialize` stores 1 (single measurement) in the MODE register and in
the cached mode, yet `HMC5883L_getMode` called next returns 0: it reads
configuration register A, which holds `0x70`, not the MODE register. -/
theorem getMode_after_init :
    ( HMC5883L_initialize (stateOf sampleRegs 0)).bus.regs HMC5883L_RA_MODE = 1 ∧
    ( HMC5883L_initialize (stateOf sampleRegs 0)).bus.regs HMC5883L_RA_CONFIG_A = 0x70 ∧
    ( HMC5883L_initialize (stateOf sampleRegs 0)).mode = HMC5883L_MODE_SINGLE ∧
    (HMC5883L_getMode ( HMC5883L_initialize (stateOf sampleRegs 0))).1 = 0 := by
  refine ⟨by decide, by decide, by decide, ?_⟩
  exact getMode_initialize_up (stateOf sampleRegs 0) rfl


/-! ## Heading reads -/

theorem toInt16_shift_or (hi lo : Nat) (hhi : hi < 256) (hlo : lo < 256) :
    toInt16 ((hi <<< 8) ||| lo) = signed16 hi lo := by
  have hor : (hi <<< 8) ||| lo = 256 * hi + lo := by
    have h := Nat.mul_add_lt_is_or (show lo < 2 ^ 8 from hlo) hi
    rw [Nat.shiftLeft_eq, Nat.mul_comm hi (2 ^ 8), ← h]
  have hlt : 256 * hi + lo < 65536 := by omega
  rw [hor]
  unfold toInt16 signed16
  rw [Nat.mod_eq_of_lt hlt]

theorem headingRead_buffer (s : State) (hup : s.bus.up = true) (i : Fin 6) :
    (if (HMC5883L_I2C_BufferRead s HMC5883L_RA_DATAX_H 6).mode = HMC5883L_MODE_SINGLE then
        HMC5883L_I2C_ByteWrite (HMC5883L_I2C_BufferRead s HMC5883L_RA_DATAX_H 6)
          ((HMC5883L_MODE_SINGLE <<< (HMC5883L_MODEREG_BIT + 1 - HMC5883L_MODEREG_LENGTH)) % 256)
          HMC5883L_RA_MODE
      else HMC5883L_I2C_BufferRead s HMC5883L_RA_DATAX_H 6).buffer i
      = s.bus.regs (HMC5883L_RA_DATAX_H + i.val) % 256 := by
  have hi : i.val < 6 := i.isLt
  split <;> simp [HMC5883L_I2C_BufferRead, HMC5883L_I2C_ByteWrite, hup, hi]

theorem headingRead_log (s : State) :
    (if (HMC5883L_I2C_BufferRead s HMC5883L_RA_DATAX_H 6).mode = HMC5883L_MODE_SINGLE then
        HMC5883L_I2C_ByteWrite (HMC5883L_I2C_BufferRead s HMC5883L_RA_DATAX_H 6)
          ((HMC5883L_MODE_SINGLE <<< (HMC5883L_MODEREG_BIT + 1 - HMC5883L_MODEREG_LENGTH)) % 256)
          HMC5883L_RA_MODE
      else HMC5883L_I2C_BufferRead s HMC5883L_RA_DATAX_H 6).bus.log
      = s.bus.log ++ Txn.read s.slaveAddr HMC5883L_RA_DATAX_H 6 ::
          (if s.mode = HMC5883L_MODE_SINGLE then [Txn.write s.slaveAddr HMC5883L_RA_MODE 0x01]
           else []) := by
  have hm : (HMC5883L_I2C_BufferRead s HMC5883L_RA_DATAX_H 6).mode = s.mode := by
    unfold HMC5883L_I2C_BufferRead
    split <;> rfl
  rw [hm]
  simp only [HMC5883L_MODE_SINGLE]
  by_cases h1 : s.mode = 1 <;> by_cases hup : s.bus.up = true <;>
    simp [h1, hup, HMC5883L_I2C_BufferRead, HMC5883L_I2C_ByteWrite,
      HMC5883L_MODEREG_BIT, HMC5883L_MODEREG_LENGTH]

/-- C7: on a responsive transport, for every content `b0..b5` of the six data
registers and every cached mode, `HMC5883L_getHeading` yields the signed 16-bit
values x of `(b0, b1)`, z of `(b2, b3)` and y of `(b4, b5)`; on the sample chip,
whose data block is `01 02 03 04 05 06`, it yields x = 0x0102, z = 0x0304 and
y = 0x0506 in every cached mode. -/
theorem getHeading_decode (s : State) (hup : s.bus.up = true) :
    ((HMC5883L_getHeading s).1.x
        = signed16 (s.bus.regs HMC5883L_RA_DATAX_H % 256)
            (s.bus.regs (HMC5883L_RA_DATAX_H + 1) % 256) ∧
      (HMC5883L_getHeading s).1.z
        = signed16 (s.bus.regs (HMC5883L_RA_DATAX_H + 2) % 256)
            (s.bus.regs (HMC5883L_RA_DATAX_H + 3) % 256) ∧
      (HMC5883L_getHeading s).1.y
        = signed16 (s.bus.regs (HMC5883L_RA_DATAX_H + 4) % 256)
            (s.bus.regs (HMC5883L_RA_DATAX_H + 5) % 256)) ∧
    ∀ m, (HMC5883L_getHeading (stateOf sampleRegs m)).1 = { x := 0x0102, y := 0x0506, z := 0x0304 } := by
  have key : ∀ t : State, t.bus.up = true →
      (HMC5883L_getHeading t).1
        = { x := signed16 (t.bus.regs HMC5883L_RA_DATAX_H % 256)
                  (t.bus.regs (HMC5883L_RA_DATAX_H + 1) % 256)
            y := signed16 (t.bus.regs (HMC5883L_RA_DATAX_H + 4) % 256)
                  (t.bus.regs (HMC5883L_RA_DATAX_H + 5) % 256)
            z := signed16 (t.bus.regs (HMC5883L_RA_DATAX_H + 2) % 256)
                  (t.bus.regs (HMC5883L_RA_DATAX_H + 3) % 256) } := by
    intro t ht
    simp only [HMC5883L_getHeading]
    rw [headingRead_buffer t ht 0, headingRead_buffer t ht 1, headingRead_buffer t ht 2,
      headingRead_buffer t ht 3, headingRead_buffer t ht 4, headingRead_buffer t ht 5]
    rw [toInt16_shift_or _ _ (Nat.mod_lt _ (by decide)) (Nat.mod_lt _ (by decide)),
      toInt16_shift_or _ _ (Nat.mod_lt _ (by decide)) (Nat.mod_lt _ (by decide)),
      toInt16_shift_or _ _ (Nat.mod_lt _ (by decide)) (Nat.mod_lt _ (by decide))]
    rfl
  refine ⟨?_, ?_⟩
  · rw [key s hup]
    exact ⟨rfl, rfl, rfl⟩
  · intro m
    rw [key (stateOf sampleRegs m) rfl]
    rfl

/-- Witness of C7 on the sample chip in single-measurement mode. -/
theorem getHeading_decode_witness :
    (stateOf sampleRegs 1).bus.up = true ∧
    (HMC5883L_getHeading (stateOf sampleRegs 1)).1.x = signed16 0x01 0x02 ∧
    (HMC5883L_getHeading (stateOf sampleRegs 1)).1.z = signed16 0x03 0x04 ∧
    (HMC5883L_getHeading (stateOf sampleRegs 1)).1.y = signed16 0x05 0x06 :=
  ⟨rfl, (getHeading_decode (stateOf sampleRegs 1) rfl).1⟩

/-- C8: for every driver state, whatever the cached mode and whether or not the
transport responds, each of the four heading reads adds to the transport log
one 6-byte read starting at DATAX_H, followed by one write of `0x01` to the
MODE register when the cached mode is single measurement, and by nothing when
it is not. -/
theorem heading_read_log (s : State) :
    (HMC5883L_getHeading s).2.bus.log
      = s.bus.log ++ Txn.read s.slaveAddr HMC5883L_RA_DATAX_H 6 ::
          (if s.mode = HMC5883L_MODE_SINGLE then [Txn.write s.slaveAddr HMC5883L_RA_MODE 0x01]
           else []) ∧
    (HMC5883L_getHeadingX s).2.bus.log
      = s.bus.log ++ Txn.read s.slaveAddr HMC5883L_RA_DATAX_H 6 ::
          (if s.mode = HMC5883L_MODE_SINGLE then [Txn.write s.slaveAddr HMC5883L_RA_MODE 0x01]
           else []) ∧
    (HMC5883L_getHeadingY s).2.bus.log
      = s.bus.log ++ Txn.read s.slaveAddr HMC5883L_RA_DATAX_H 6 ::
          (if s.mode = HMC5883L_MODE_SINGLE then [Txn.write s.slaveAddr HMC5883L_RA_MODE 0x01]
           else []) ∧
    (HMC5883L_getHeadingZ s).2.bus.log
      = s.bus.log ++ Txn.read s.slaveAddr HMC5883L_RA_DATAX_H 6 ::
          (if s.mode = HMC5883L_MODE_SINGLE then [Txn.write s.slaveAddr HMC5883L_RA_MODE 0x01]
           else []) :=
  ⟨headingRead_log s, headingRead_log s, headingRead_log s, headingRead_log s⟩

/-! ## Identification -/

/-- C9: on a responsive transport `isHMC` issues one 3-byte read starting at ID_A
and returns true exactly when the three bytes delivered are `0x48`, `0x34`,
`0x33` in this order. -/
theorem isHMC_iff_signature (s : State) (hup : s.bus.up = true) :
    (isHMC s).2.bus.log = s.bus.log ++ [Txn.read s.slaveAddr HMC5883L_RA_ID_A 3] ∧
    ((isHMC s).1 = true ↔
      [s.bus.regs HMC5883L_RA_ID_A % 256, s.bus.regs (HMC5883L_RA_ID_A + 1) % 256,
        s.bus.regs (HMC5883L_RA_ID_A + 2) % 256] = [0x48, 0x34, 0x33]) := by
  constructor
  · simp [isHMC, HMC5883L_I2C_BufferRead, hup]
  · simp [isHMC, HMC5883L_I2C_BufferRead, hup, and_assoc]

/-- Witness of C9: the sample chip answers `H`, `4`, `3` and is recognised. -/
theorem isHMC_iff_signature_witness :
    (stateOf sampleRegs 0).bus.up = true ∧ (isHMC (stateOf sampleRegs 0)).1 = true :=
  ⟨rfl, (isHMC_iff_signature (stateOf sampleRegs 0) rfl).2.mpr (by decide)⟩

/-- C10 (the code departs from the claim): a first `isHMC` on the responsive sample
chip returns true and leaves `H`, `4`, `3` in the scratch buffer; when the
transport then stops responding, so that the identification read delivers no
byte, the next `isHMC` still returns true. -/
theorem isHMC_true_on_failed_read :
    (isHMC (stateOf sampleRegs 0)).1 = true ∧
    (busDown (isHMC (stateOf sampleRegs 0)).2).bus.up = false ∧
    (isHMC (busDown (isHMC (stateOf sampleRegs 0)).2)).1 = true := by
  refine ⟨by decide, by decide, by decide⟩

/-! ## Projections of the transport primitives -/

@[simp] theorem setBuffer0_mode (s : State) (v : Nat) : (setBuffer0 s v).mode = s.mode := rfl

@[simp] theorem setBuffer0_slaveAddr (s : State) (v : Nat) :
    (setBuffer0 s v).slaveAddr = s.slaveAddr := rfl

@[simp] theorem setBuffer0_bus (s : State) (v : Nat) : (setBuffer0 s v).bus = s.bus := rfl

@[simp] theorem BufferRead_mode (s : State) (reg n : Nat) :
    (HMC5883L_I2C_BufferRead s reg n).mode = s.mode := by
  unfold HMC5883L_I2C_BufferRead
  split <;> rfl

@[simp] theorem BufferRead_slaveAddr (s : State) (reg n : Nat) :
    (HMC5883L_I2C_BufferRead s reg n).slaveAddr = s.slaveAddr := by
  unfold HMC5883L_I2C_BufferRead
  split <;> rfl

@[simp] theorem BufferRead_log (s : State) (reg n : Nat) :
    (HMC5883L_I2C_BufferRead s reg n).bus.log = s.bus.log ++ [Txn.read s.slaveAddr reg n] := by
  unfold HMC5883L_I2C_BufferRead
  split <;> rfl

@[simp] theorem BufferRead_up (s : State) (reg n : Nat) :
    (HMC5883L_I2C_BufferRead s reg n).bus.up = s.bus.up := by
  unfold HMC5883L_I2C_BufferRead
  split <;> rfl

@[simp] theorem BufferRead_regs (s : State) (reg n : Nat) :
    (HMC5883L_I2C_BufferRead s reg n).bus.regs = s.bus.regs := by
  unfold HMC5883L_I2C_BufferRead
  split <;> rfl

theorem BufferRead_down (s : State) (reg n : Nat) (h : s.bus.up = false) :
    (HMC5883L_I2C_BufferRead s reg n).buffer = s.buffer := by
  simp [HMC5883L_I2C_BufferRead, h]

@[simp] theorem ByteWrite_mode (s : State) (val reg : Nat) :
    (HMC5883L_I2C_ByteWrite s val reg).mode = s.mode := by
  unfold HMC5883L_I2C_ByteWrite
  split <;> rfl

@[simp] theorem ByteWrite_slaveAddr (s : State) (val reg : Nat) :
    (HMC5883L_I2C_ByteWrite s val reg).slaveAddr = s.slaveAddr := by
  unfold HMC5883L_I2C_ByteWrite
  split <;> rfl

@[simp] theorem ByteWrite_buffer (s : State) (val reg : Nat) :
    (HMC5883L_I2C_ByteWrite s val reg).buffer = s.buffer := by
  unfold HMC5883L_I2C_ByteWrite
  split <;> rfl

@[simp] theorem ByteWrite_up (s : State) (val reg : Nat) :
    (HMC5883L_I2C_ByteWrite s val reg).bus.up = s.bus.up := by
  unfold HMC5883L_I2C_ByteWrite
  split <;> simp_all

@[simp] theorem ByteWrite_log (s : State) (val reg : Nat) :
    (HMC5883L_I2C_ByteWrite s val reg).bus.log
      = s.bus.log ++ [Txn.write s.slaveAddr reg (val % 256)] := by
  unfold HMC5883L_I2C_ByteWrite
  split <;> rfl

theorem ByteWrite_regs (s : State) (val reg : Nat) :
    (HMC5883L_I2C_ByteWrite s val reg).bus.regs
      = if s.bus.up = true then Function.update s.bus.regs reg (val % 256) else s.bus.regs := by
  unfold HMC5883L_I2C_ByteWrite
  split <;> rfl

@[simp] theorem setBuffer0_buffer_zero (s : State) (v : Nat) :
    (setBuffer0 s v).buffer 0 = v % 256 := by
  simp [setBuffer0]

/-! ## Gain and mode setters overwrite the register -/

theorem setGain_log (s : State) (v : Nat) :
    (HMC5883L_setGain s v).bus.log
      = s.bus.log ++ [Txn.write s.slaveAddr HMC5883L_RA_CONFIG_B ((v <<< 5) % 256)] := by
  simp [HMC5883L_setGain, HMC5883L_CRB_GAIN_BIT, HMC5883L_CRB_GAIN_LENGTH]

theorem setMode_log (s : State) (v : Nat) :
    (HMC5883L_setMode s v).bus.log
      = s.bus.log ++ [Txn.write s.slaveAddr HMC5883L_RA_MODE (v % 256)] := by
  simp [HMC5883L_setMode, HMC5883L_MODEREG_BIT, HMC5883L_MODEREG_LENGTH]

theorem setGain_regs (s : State) (v : Nat) :
    (HMC5883L_setGain s v).bus.regs
      = if s.bus.up = true then
          Function.update s.bus.regs HMC5883L_RA_CONFIG_B ((v <<< 5) % 256)
        else s.bus.regs := by
  simp [HMC5883L_setGain, ByteWrite_regs, HMC5883L_CRB_GAIN_BIT, HMC5883L_CRB_GAIN_LENGTH]

theorem setMode_regs (s : State) (v : Nat) :
    (HMC5883L_setMode s v).bus.regs
      = if s.bus.up = true then Function.update s.bus.regs HMC5883L_RA_MODE (v % 256)
        else s.bus.regs := by
  simp [HMC5883L_setMode, ByteWrite_regs, HMC5883L_MODEREG_BIT, HMC5883L_MODEREG_LENGTH]

/-- C12: for every state, whatever the target register holds, `HMC5883L_setGain v`
with `v` in `0..7` issues exactly one transaction, the write of `v << 5` to
configuration register B, and `HMC5883L_setMode m` with `m` in `0..2` issues
exactly one transaction, the write of `m` to the MODE register; no read is
issued, and on a responsive transport the register afterwards holds exactly the
byte written. -/
theorem gain_mode_overwrite (s : State) (v m : Nat) (hv : v ≤ 7) (hm : m ≤ 2) :
    (HMC5883L_setGain s v).bus.log
      = s.bus.log ++ [Txn.write s.slaveAddr HMC5883L_RA_CONFIG_B (v <<< 5)] ∧
    (HMC5883L_setGain s v).bus.regs
      = (if s.bus.up = true then Function.update s.bus.regs HMC5883L_RA_CONFIG_B (v <<< 5)
         else s.bus.regs) ∧
    (HMC5883L_setMode s m).bus.log
      = s.bus.log ++ [Txn.write s.slaveAddr HMC5883L_RA_MODE m] ∧
    (HMC5883L_setMode s m).bus.regs
      = (if s.bus.up = true then Function.update s.bus.regs HMC5883L_RA_MODE m
         else s.bus.regs) := by
  have hg : (v <<< 5) % 256 = v <<< 5 := by
    rw [Nat.shiftLeft_eq]
    exact Nat.mod_eq_of_lt (by omega)
  have hmm : m % 256 = m := Nat.mod_eq_of_lt (by omega)
  refine ⟨?_, ?_, ?_, ?_⟩
  · rw [setGain_log, hg]
  · rw [setGain_regs, hg]
  · rw [setMode_log, hmm]
  · rw [setMode_regs, hmm]

/-- Witness of C12 on the sample chip, whose CONFIG_B and MODE registers hold
`0xFF`: gain 5 is written as `0xA0`, mode 2 as `0x02`. -/
theorem gain_mode_overwrite_witness :
    (5 : Nat) ≤ 7 ∧ (2 : Nat) ≤ 2 ∧
    (HMC5883L_setGain (stateOf sampleRegs 0) 5).bus.log
      = [Txn.write 0x1E HMC5883L_RA_CONFIG_B 0xA0] ∧
    (HMC5883L_setMode (stateOf sampleRegs 0) 2).bus.log
      = [Txn.write 0x1E HMC5883L_RA_MODE 0x02] :=
  ⟨by decide, by decide,
    (gain_mode_overwrite (stateOf sampleRegs 0) 5 2 (by decide) (by decide)).1,
    (gain_mode_overwrite (stateOf sampleRegs 0) 5 2 (by decide) (by decide)).2.2.1⟩

/-! ## The cached mode -/

theorem headingRead_mode (s : State) :
    (if (HMC5883L_I2C_BufferRead s HMC5883L_RA_DATAX_H 6).mode = HMC5883L_MODE_SINGLE then
        HMC5883L_I2C_ByteWrite (HMC5883L_I2C_BufferRead s HMC5883L_RA_DATAX_H 6)
          ((HMC5883L_MODE_SINGLE <<< (HMC5883L_MODEREG_BIT + 1 - HMC5883L_MODEREG_LENGTH)) % 256)
          HMC5883L_RA_MODE
      else HMC5883L_I2C_BufferRead s HMC5883L_RA_DATAX_H 6).mode = s.mode := by
  split <;> simp

/-- C14: for every state, `HMC5883L_setMode m` leaves the cached mode equal to the
byte `m` and `HMC5883L_initialize` leaves it equal to single measurement; every
other operation leaves the cached mode as it was: the four heading reads, the
five configuration getters, the three CONFIG_A setters and `HMC5883L_setGain`
(for every argument `v`), the two status reads, the three ID reads and `isHMC`. -/
theorem cached_mode_changes (s : State) (m v : Nat) (hm : m < 256) :
    ((HMC5883L_setMode s m).mode = m ∧
      ( HMC5883L_initialize s).mode = HMC5883L_MODE_SINGLE) ∧
    ((HMC5883L_getHeading s).2.mode = s.mode ∧
      (HMC5883L_getHeadingX s).2.mode = s.mode ∧
      (HMC5883L_getHeadingY s).2.mode = s.mode ∧
      (HMC5883L_getHeadingZ s).2.mode = s.mode) ∧
    ((HMC5883L_getSampleAveraging s).2.mode = s.mode ∧
      (HMC5883L_getDataRate s).2.mode = s.mode ∧
      (HMC5883L_getMeasurementBias s).2.mode = s.mode ∧
      (HMC5883L_getGain s).2.mode = s.mode ∧
      (HMC5883L_getMode s).2.mode = s.mode) ∧
    ((HMC5883L_setSampleAveraging s v).mode = s.mode ∧
      (HMC5883L_setDataRate s v).mode = s.mode ∧
      (HMC5883L_setMeasurementBias s v).mode = s.mode ∧
      (HMC5883L_setGain s v).mode = s.mode) ∧
    ((HMC5883L_getLockStatus s).2.mode = s.mode ∧
      (HMC5883L_getReadyStatus s).2.mode = s.mode) ∧
    ((HMC5883L_getIDA s).2.mode = s.mode ∧
      (HMC5883L_getIDB s).2.mode = s.mode ∧
      (HMC5883L_getIDC s).2.mode = s.mode ∧
      (isHMC s).2.mode = s.mode) := by
  refine ⟨⟨?_, ?_⟩, ⟨?_, ?_, ?_, ?_⟩, ⟨?_, ?_, ?_, ?_, ?_⟩, ⟨?_, ?_, ?_, ?_⟩, ⟨?_, ?_⟩,
    ⟨?_, ?_, ?_, ?_⟩⟩
  · simp [HMC5883L_setMode, Nat.mod_eq_of_lt hm]
  · simp [ HMC5883L_initialize, HMC5883L_setMode, HMC5883L_MODE_SINGLE]
  · exact headingRead_mode s
  · exact headingRead_mode s
  · exact headingRead_mode s
  · exact headingRead_mode s
  · simp [HMC5883L_getSampleAveraging]
  · simp [HMC5883L_getDataRate]
  · simp [HMC5883L_getMeasurementBias]
  · simp [HMC5883L_getGain]
  · simp [HMC5883L_getMode]
  · simp [HMC5883L_setSampleAveraging]
  · simp [HMC5883L_setDataRate]
  · simp [HMC5883L_setMeasurementBias]
  · simp [HMC5883L_setGain]
  · simp [HMC5883L_getLockStatus]
  · simp [HMC5883L_getReadyStatus]
  · simp [HMC5883L_getIDA]
  · simp [HMC5883L_getIDB]
  · simp [HMC5883L_getIDC]
  · simp [isHMC]

/-- Witness of C14 on the sample chip with cached mode 1: setting mode 2 makes the
cached mode 2, and a heading read, which re-arms the chip, leaves it at 1. -/
theorem cached_mode_changes_witness :
    (2 : Nat) < 256 ∧
    (HMC5883L_setMode (stateOf sampleRegs 1) 2).mode = 2 ∧
    (HMC5883L_getHeading (stateOf sampleRegs 1)).2.mode = 1 :=
  ⟨by decide, (cached_mode_changes (stateOf sampleRegs 1) 2 0xA5 (by decide)).1.1,
    (cached_mode_changes (stateOf sampleRegs 1) 2 0xA5 (by decide)).2.1.1⟩

/-! ## Initialisation -/

/-- C15: for every state, whatever the register file holds, whatever the cached mode
is and whether or not the transport responds, `HMC5883L_initialize` issues no
read and exactly three writes, in this order: `0x70` to configuration register
A, `0x20` to configuration register B and `0x01` to the MODE register;
afterwards the cached mode is single measurement. -/
theorem init_writes (s : State) :
    ( HMC5883L_initialize s).bus.log = s.bus.log ++
      [Txn.write s.slaveAddr HMC5883L_RA_CONFIG_A 0x70,
       Txn.write s.slaveAddr HMC5883L_RA_CONFIG_B 0x20,
       Txn.write s.slaveAddr HMC5883L_RA_MODE 0x01] ∧
    ( HMC5883L_initialize s).mode = HMC5883L_MODE_SINGLE := by
  constructor
  · simp [ HMC5883L_initialize, setMode_log, setGain_log, HMC5883L_AVERAGING_8, HMC5883L_RATE_15,
      HMC5883L_BIAS_NORMAL, HMC5883L_GAIN_1090, HMC5883L_MODE_SINGLE, HMC5883L_CRA_AVERAGE_BIT,
      HMC5883L_CRA_AVERAGE_LENGTH, HMC5883L_CRA_RATE_BIT, HMC5883L_CRA_RATE_LENGTH,
      HMC5883L_CRA_BIAS_BIT, HMC5883L_CRA_BIAS_LENGTH, HMC5883L_setGain, HMC5883L_setMode,
      HMC5883L_CRB_GAIN_BIT, HMC5883L_CRB_GAIN_LENGTH, HMC5883L_MODEREG_BIT,
      HMC5883L_MODEREG_LENGTH]
  · simp [ HMC5883L_initialize, HMC5883L_setMode, HMC5883L_MODE_SINGLE]

/-! ## Status register -/

theorem status_bit (r k : Nat) : ((((r >>> k) &&& 0x01) % 256) != 0) = r.testBit k := by
  have h1 : (r >>> k) &&& 0x01 ≤ 1 := Nat.and_le_right
  rw [Nat.mod_eq_of_lt (by omega)]
  unfold Nat.testBit
  rw [Nat.and_comm]

/-- C16: on a responsive transport, for every byte `r` of the status register,
`HMC5883L_getLockStatus` returns the lock bit of `r` (bit 1) and
`HMC5883L_getReadyStatus` returns the ready bit of `r` (bit 0), so neither
depends on any other bit of `r`. -/
theorem status_reads (s : State) (hup : s.bus.up = true) :
    (HMC5883L_getLockStatus s).1
      = (s.bus.regs HMC5883L_RA_STATUS % 256).testBit HMC5883L_STATUS_LOCK_BIT ∧
    (HMC5883L_getReadyStatus s).1
      = (s.bus.regs HMC5883L_RA_STATUS % 256).testBit HMC5883L_STATUS_READY_BIT := by
  constructor
  · simp only [HMC5883L_getLockStatus, setBuffer0_buffer_zero]
    rw [status_bit]
    simp [HMC5883L_I2C_BufferRead, hup]
  · simp only [HMC5883L_getReadyStatus, setBuffer0_buffer_zero]
    rw [status_bit]
    simp [HMC5883L_I2C_BufferRead, hup]

/-- Witness of C16 on the chip whose status register holds `0x02`: locked, not
ready. -/
theorem status_reads_witness :
    (stateOf overflowRegs 0).bus.up = true ∧
    (HMC5883L_getLockStatus (stateOf overflowRegs 0)).1 = true ∧
    (HMC5883L_getReadyStatus (stateOf overflowRegs 0)).1 = false :=
  ⟨rfl, (status_reads (stateOf overflowRegs 0) rfl).1.trans (by decide),
    (status_reads (stateOf overflowRegs 0) rfl).2.trans (by decide)⟩

/-! ## Heading reads, axis by axis -/

theorem heading_axis_up (s : State) (hup : s.bus.up = true) (b : Axis) :
    (HMC5883L_getHeading s).1.component b
      = signed16 (s.bus.regs (HMC5883L_RA_DATAX_H + b.offset) % 256)
          (s.bus.regs (HMC5883L_RA_DATAX_H + b.offset + 1) % 256) ∧
    (readAxis b s).1
      = signed16 (s.bus.regs (HMC5883L_RA_DATAX_H + b.offset) % 256)
          (s.bus.regs (HMC5883L_RA_DATAX_H + b.offset + 1) % 256) := by
  cases b
  · simp only [readAxis, Heading.component, HMC5883L_getHeading, HMC5883L_getHeadingX]
    rw [headingRead_buffer s hup 0, headingRead_buffer s hup 1,
      toInt16_shift_or _ _ (Nat.mod_lt _ (by decide)) (Nat.mod_lt _ (by decide))]
    exact ⟨rfl, rfl⟩
  · simp only [readAxis, Heading.component, HMC5883L_getHeading, HMC5883L_getHeadingY]
    rw [headingRead_buffer s hup 4, headingRead_buffer s hup 5,
      toInt16_shift_or _ _ (Nat.mod_lt _ (by decide)) (Nat.mod_lt _ (by decide))]
    exact ⟨rfl, rfl⟩
  · simp only [readAxis, Heading.component, HMC5883L_getHeading, HMC5883L_getHeadingZ]
    rw [headingRead_buffer s hup 2, headingRead_buffer s hup 3,
      toInt16_shift_or _ _ (Nat.mod_lt _ (by decide)) (Nat.mod_lt _ (by decide))]
    exact ⟨rfl, rfl⟩

/-- C13: on a responsive transport, for every six-byte data block in which the byte
pair of an axis `a` is `(0xF0, 0x00)`, `HMC5883L_getHeading` and the single-axis
reader of `a` both return `-4096` for that axis, and every axis `b` is decoded,
by `HMC5883L_getHeading` and by its own reader, from its own byte pair. -/
theorem overflow_passthrough (s : State) (a : Axis) (hup : s.bus.up = true)
    (hhi : s.bus.regs (HMC5883L_RA_DATAX_H + a.offset) % 256 = 0xF0)
    (hlo : s.bus.regs (HMC5883L_RA_DATAX_H + a.offset + 1) % 256 = 0x00) :
    (HMC5883L_getHeading s).1.component a = -4096 ∧
    (readAxis a s).1 = -4096 ∧
    ∀ b : Axis,
      (HMC5883L_getHeading s).1.component b
        = signed16 (s.bus.regs (HMC5883L_RA_DATAX_H + b.offset) % 256)
            (s.bus.regs (HMC5883L_RA_DATAX_H + b.offset + 1) % 256) ∧
      (readAxis b s).1
        = signed16 (s.bus.regs (HMC5883L_RA_DATAX_H + b.offset) % 256)
            (s.bus.regs (HMC5883L_RA_DATAX_H + b.offset + 1) % 256) := by
  have h := heading_axis_up s hup a
  rw [hhi, hlo] at h
  have e : signed16 0xF0 0x00 = -4096 := by decide
  rw [e] at h
  exact ⟨h.1, h.2, heading_axis_up s hup⟩

/-- Witness of C13 on the chip whose data block is `01 02 F0 00 05 06`: Z is
`-4096`, X and Y are `0x0102` and `0x0506`. -/
theorem overflow_passthrough_witness :
    (stateOf overflowRegs 1).bus.up = true ∧
    (HMC5883L_getHeading (stateOf overflowRegs 1)).1.component Axis.Z = -4096 ∧
    (readAxis Axis.Z (stateOf overflowRegs 1)).1 = -4096 ∧
    (HMC5883L_getHeading (stateOf overflowRegs 1)).1.component Axis.X = 0x0102 ∧
    (HMC5883L_getHeading (stateOf overflowRegs 1)).1.component Axis.Y = 0x0506 :=
  ⟨rfl,
    (overflow_passthrough (stateOf overflowRegs 1) Axis.Z rfl (by decide) (by decide)).1,
    (overflow_passthrough (stateOf overflowRegs 1) Axis.Z rfl (by decide) (by decide)).2.1,
    ((overflow_passthrough (stateOf overflowRegs 1) Axis.Z rfl (by decide) (by decide)).2.2
      Axis.X).1.trans (by decide),
    ((overflow_passthrough (stateOf overflowRegs 1) Axis.Z rfl (by decide) (by decide)).2.2
      Axis.Y).1.trans (by decide)⟩

/-- C17: for every state, `HMC5883L_getHeadingX`, `HMC5883L_getHeadingY` and
`HMC5883L_getHeadingZ` return the x, y and z components `HMC5883L_getHeading`
returns from the same state and leave the same state behind, transport log
included: one 6-byte read starting at DATAX_H followed by the re-arm write of
`0x01` to the MODE register exactly when the cached mode is single measurement. -/
theorem single_axis_agrees (s : State) :
    ((HMC5883L_getHeadingX s).1 = (HMC5883L_getHeading s).1.x ∧
      (HMC5883L_getHeadingY s).1 = (HMC5883L_getHeading s).1.y ∧
      (HMC5883L_getHeadingZ s).1 = (HMC5883L_getHeading s).1.z) ∧
    ((HMC5883L_getHeadingX s).2 = (HMC5883L_getHeading s).2 ∧
      (HMC5883L_getHeadingY s).2 = (HMC5883L_getHeading s).2 ∧
      (HMC5883L_getHeadingZ s).2 = (HMC5883L_getHeading s).2) ∧
    (HMC5883L_getHeading s).2.bus.log
      = s.bus.log ++ Txn.read s.slaveAddr HMC5883L_RA_DATAX_H 6 ::
          (if s.mode = HMC5883L_MODE_SINGLE then [Txn.write s.slaveAddr HMC5883L_RA_MODE 0x01]
           else []) :=
  ⟨⟨rfl, rfl, rfl⟩, ⟨rfl, rfl, rfl⟩, headingRead_log s⟩

/-! ## Arguments outside the field's range -/

/-- C18 (the code departs from the claim): on the sample chip `HMC5883L_setMode`
called with `0xFF` issues the write of `0xFF` to the MODE register, which then
holds `0xFF`: bits 7..2 of the byte written are set, not cleared; called with
`0x04` it writes `0x04`, with bit 2 set. -/
theorem setMode_writes_high_bits :
    (HMC5883L_setMode (stateOf sampleRegs 0) 0xFF).bus.log
      = [Txn.write 0x1E HMC5883L_RA_MODE 0xFF] ∧
    (HMC5883L_setMode (stateOf sampleRegs 0) 0xFF).bus.regs HMC5883L_RA_MODE = 0xFF ∧
    (0xFF : Nat) >>> 2 ≠ 0 ∧
    (HMC5883L_setMode (stateOf sampleRegs 0) 0x04).bus.log
      = [Txn.write 0x1E HMC5883L_RA_MODE 0x04] ∧
    (0x04 : Nat).testBit 2 = true := by
  refine ⟨by decide, by decide, by decide, by decide, by decide⟩

/-- C19: on a responsive transport, for every argument `v` and every previous
register content, the field setters truncate `v` to the field width: after
`HMC5883L_setSampleAveraging v` the averaging getter returns `v % 4`, after
`HMC5883L_setDataRate v` the rate getter returns `v % 8`, after
`HMC5883L_setMeasurementBias v` the bias getter returns `v % 4`, and after
`HMC5883L_setGain v` the gain getter returns `v % 8` and bits 4..0 of
configuration register B are zero. -/
theorem setters_truncate (s : State) (v : Nat) (hup : s.bus.up = true) :
    (HMC5883L_getSampleAveraging (HMC5883L_setSampleAveraging s v)).1 = v % 4 ∧
    (HMC5883L_getDataRate (HMC5883L_setDataRate s v)).1 = v % 8 ∧
    (HMC5883L_getMeasurementBias (HMC5883L_setMeasurementBias s v)).1 = v % 4 ∧
    (HMC5883L_getGain (HMC5883L_setGain s v)).1 = v % 8 ∧
    (HMC5883L_setGain s v).bus.regs HMC5883L_RA_CONFIG_B % 32 = 0 := by
  refine ⟨?_, ?_, ?_, ?_, ?_⟩
  · rw [setSampleAveraging_up s v hup, getSampleAveraging_val _ rfl, rmwResult_read_back,
      fieldGet_fieldPut 5 2 _ _ (by decide)]
    rfl
  · rw [setDataRate_up s v hup, getDataRate_val _ rfl, rmwResult_read_back,
      fieldGet_fieldPut 2 3 _ _ (by decide)]
    rfl
  · rw [setMeasurementBias_up s v hup, getMeasurementBias_val _ rfl, rmwResult_read_back,
      fieldGet_fieldPut 0 2 _ _ (by decide)]
    rfl
  · rw [setGain_up s v hup, getGain_val _ rfl]
    simp only [Function.update_same]
    rw [fieldGet_gain_byte]
    rfl
  · rw [setGain_up s v hup]
    simp only [Function.update_same]
    rw [Nat.shiftLeft_eq]
    omega

/-- Witness of C19 on the sample chip with the argument `0xFF`: the getters return
3, 7, 3 and 7. -/
theorem setters_truncate_witness :
    (stateOf sampleRegs 0).bus.up = true ∧
    (HMC5883L_getSampleAveraging (HMC5883L_setSampleAveraging (stateOf sampleRegs 0) 0xFF)).1
      = 3 ∧
    (HMC5883L_getDataRate (HMC5883L_setDataRate (stateOf sampleRegs 0) 0xFF)).1 = 7 ∧
    (HMC5883L_getMeasurementBias (HMC5883L_setMeasurementBias (stateOf sampleRegs 0) 0xFF)).1
      = 3 ∧
    (HMC5883L_getGain (HMC5883L_setGain (stateOf sampleRegs 0) 0xFF)).1 = 7 ∧
    (HMC5883L_setGain (stateOf sampleRegs 0) 0xFF).bus.regs HMC5883L_RA_CONFIG_B % 32 = 0 :=
  ⟨rfl, setters_truncate (stateOf sampleRegs 0) 0xFF rfl⟩

/-! ## Accessors on a failing transport -/

theorem getter_down (s : State) (hdown : s.bus.up = false) (reg lsb len : Nat) :
    (setBuffer0 (setBuffer0 (HMC5883L_I2C_BufferRead s reg 1)
        ((HMC5883L_I2C_BufferRead s reg 1).buffer 0 &&& fieldMask lsb len))
      ((setBuffer0 (HMC5883L_I2C_BufferRead s reg 1)
        ((HMC5883L_I2C_BufferRead s reg 1).buffer 0 &&& fieldMask lsb len)).buffer 0
          >>> lsb)).buffer 0
      = fieldGet lsb len (s.buffer 0) := by
  simp [BufferRead_down s reg 1 hdown, fieldGet]

theorem headingRead_buffer_down (s : State) (hdown : s.bus.up = false) :
    (if (HMC5883L_I2C_BufferRead s HMC5883L_RA_DATAX_H 6).mode = HMC5883L_MODE_SINGLE then
        HMC5883L_I2C_ByteWrite (HMC5883L_I2C_BufferRead s HMC5883L_RA_DATAX_H 6)
          ((HMC5883L_MODE_SINGLE <<< (HMC5883L_MODEREG_BIT + 1 - HMC5883L_MODEREG_LENGTH)) % 256)
          HMC5883L_RA_MODE
      else HMC5883L_I2C_BufferRead s HMC5883L_RA_DATAX_H 6).buffer = s.buffer := by
  split <;> simp [BufferRead_down s _ _ hdown]

/-- C11 fails as stated: on the sample chip, after a successful `isHMC` has left
`H`, `4`, `3` in the scratch buffer and with the transport then failing,
`HMC5883L_getSampleAveraging` returns 2, decoded from the stale `H`, although
configuration register A holds `0xFF`, and `HMC5883L_getHeading` returns
x = `0x4834`, z = `0x3300`, y = 0, decoded from the stale buffer, although the
data block is `01 02 03 04 05 06`. -/
theorem stale_value_on_failed_read :
    staleState.bus.up = false ∧
    staleState.bus.regs HMC5883L_RA_CONFIG_A = 0xFF ∧
    (HMC5883L_getSampleAveraging staleState).1 = 2 ∧
    (HMC5883L_getHeading (stateOf sampleRegs 1)).1 = { x := 0x0102, y := 0x0506, z := 0x0304 } ∧
    (HMC5883L_getHeading staleState).1 = { x := 0x4834, y := 0, z := 0x3300 } := by
  refine ⟨by decide, by decide, by decide, by decide, by decide⟩

/-- C11 as amended: no getter has a failure result, and when its transport read
fails, delivering no byte, it returns what its decoding yields on the bytes the
scratch buffer already held: the five field getters the field of `buffer[0]`,
the ID reads `buffer[0]` itself, the heading reads the three byte pairs of the
buffer, the status reads bit 1 and bit 0 of `buffer[0]`.  A getter issues no
write, except the re-arm write of a heading read, which sends a local byte and
leaves the buffer alone. -/
theorem accessors_on_failed_transport (s : State) (hdown : s.bus.up = false) :
    ((HMC5883L_getSampleAveraging s).1 = fieldGet 5 2 (s.buffer 0) ∧
      (HMC5883L_getDataRate s).1 = fieldGet 2 3 (s.buffer 0) ∧
      (HMC5883L_getMeasurementBias s).1 = fieldGet 0 2 (s.buffer 0) ∧
      (HMC5883L_getGain s).1 = fieldGet 5 3 (s.buffer 0) ∧
      (HMC5883L_getMode s).1 = fieldGet 0 2 (s.buffer 0)) ∧
    ((HMC5883L_getIDA s).1 = s.buffer 0 ∧
      (HMC5883L_getIDB s).1 = s.buffer 0 ∧
      (HMC5883L_getIDC s).1 = s.buffer 0) ∧
    ((HMC5883L_getHeading s).1
        = { x := toInt16 ((s.buffer 0 <<< 8) ||| s.buffer 1)
            y := toInt16 ((s.buffer 4 <<< 8) ||| s.buffer 5)
            z := toInt16 ((s.buffer 2 <<< 8) ||| s.buffer 3) } ∧
      (HMC5883L_getHeadingX s).1 = toInt16 ((s.buffer 0 <<< 8) ||| s.buffer 1) ∧
      (HMC5883L_getHeadingY s).1 = toInt16 ((s.buffer 4 <<< 8) ||| s.buffer 5) ∧
      (HMC5883L_getHeadingZ s).1 = toInt16 ((s.buffer 2 <<< 8) ||| s.buffer 3)) ∧
    ((HMC5883L_getLockStatus s).1 = (s.buffer 0).testBit HMC5883L_STATUS_LOCK_BIT ∧
      (HMC5883L_getReadyStatus s).1 = (s.buffer 0).testBit HMC5883L_STATUS_READY_BIT) := by
  refine ⟨⟨?_, ?_, ?_, ?_, ?_⟩, ⟨?_, ?_, ?_⟩, ⟨?_, ?_, ?_, ?_⟩, ⟨?_, ?_⟩⟩
  · exact getter_down s hdown HMC5883L_RA_CONFIG_A 5 2
  · exact getter_down s hdown HMC5883L_RA_CONFIG_A 2 3
  · exact getter_down s hdown HMC5883L_RA_CONFIG_A 0 2
  · exact getter_down s hdown HMC5883L_RA_CONFIG_B 5 3
  · exact getter_down s hdown HMC5883L_RA_CONFIG_A 0 2
  · simp [HMC5883L_getIDA, BufferRead_down s _ _ hdown]
  · simp [HMC5883L_getIDB, BufferRead_down s _ _ hdown]
  · simp [HMC5883L_getIDC, BufferRead_down s _ _ hdown]
  · simp only [HMC5883L_getHeading, headingRead_buffer_down s hdown]
  · simp only [HMC5883L_getHeadingX, headingRead_buffer_down s hdown]
  · simp only [HMC5883L_getHeadingY, headingRead_buffer_down s hdown]
  · simp only [HMC5883L_getHeadingZ, headingRead_buffer_down s hdown]
  · simp only [HMC5883L_getLockStatus, setBuffer0_buffer_zero]
    rw [status_bit, BufferRead_down s _ _ hdown]
  · simp only [HMC5883L_getReadyStatus, setBuffer0_buffer_zero]
    rw [status_bit, BufferRead_down s _ _ hdown]

/-- Witness of the amended C11 in the state with the stale bytes `H`, `4`, `3`: the
averaging getter returns the averaging field of `H`, the ID read returns `H`
and the heading read decodes the stale buffer. -/
theorem accessors_on_failed_transport_witness :
    staleState.bus.up = false ∧
    (HMC5883L_getSampleAveraging staleState).1 = fieldGet 5 2 0x48 ∧
    (HMC5883L_getIDA staleState).1 = 0x48 ∧
    (HMC5883L_getHeadingX staleState).1 = 0x4834 :=
  ⟨rfl, (accessors_on_failed_transport staleState rfl).1.1,
    (accessors_on_failed_transport staleState rfl).2.1.1,
    (accessors_on_failed_transport staleState rfl).2.2.1.2.1.trans (by decide)⟩

end HMC5883L
